import Mathlib

/-!
# Verification of the job-intelligence ML pipeline

Shallow embedding of the core pipeline of the repository:
`ml_models/clustering.py` (CompanyClusterer, OpportunityScorer),
`ml_models/predictive.py` (HiringTrendPredictor),
`ml_models/feature_engineering.py` (JobFeatureExtractor),
`ml_models/text_classifier.py` (UrgencyClassifier, TechStackClassifier),
`agent2_signal_processor/ml_processor.py` (MLSignalProcessor),
`agent2_signal_processor/signals.py` (rule-based extractors),
`ml_agent_runner.py` (MLJobIntelligenceSystem) and
`agent3_insight_generator/ml_insights.py` (MLInsightGenerator).

Python floats are modelled as rationals (`ℚ`).  Calls into scikit-learn /
pandas (k-means, PCA, StandardScaler, TF-IDF, regression models, calendar
arithmetic) are modelled as explicit function parameters, constrained only by
the library contracts the proofs need; everything written in the repository
itself is translated directly.  Python exceptions are modelled with `Except`.
-/

/-- `budget_signals` sub-record of a posting (`signals.extract_budget_signals`
output shape).  Only the fields the core reads are kept. -/
structure BudgetSignals where
  salary_ranges : List String
  hourly_rates : List String
  equity_mentions : List String
  budget_phrases : List String
deriving DecidableEq

/-- A job posting.  Python postings are dicts read with `job.get(key, default)`;
a missing key is `none` and each getter below applies the default used at the
corresponding call site. -/
structure Job where
  company : Option String := none
  location : Option String := none
  description : Option String := none
  department : Option String := none
  source : Option String := none
  scraped_date : Option String := none
  urgent_hiring_language : Option (List String) := none
  technology_adoption : Option (List String) := none
  pain_points : Option (List String) := none
  budget_signals : Option BudgetSignals := none
deriving DecidableEq

/-- `job.get('company', 'Unknown')`. -/
def Job.getCompany (j : Job) : String := j.company.getD "Unknown"

/-- `job.get('location', 'Unknown')`. -/
def Job.getLocation (j : Job) : String := j.location.getD "Unknown"

/-- `job.get('description', '')`. -/
def Job.getDescription (j : Job) : String := j.description.getD ""

/-- `job.get('department', 'Unknown')`. -/
def Job.getDepartment (j : Job) : String := j.department.getD "Unknown"

/-- `job.get('source', 'Unknown')`. -/
def Job.getSource (j : Job) : String := j.source.getD "Unknown"

/-- `job.get('urgent_hiring_language', [])`. -/
def Job.getUrgent (j : Job) : List String := j.urgent_hiring_language.getD []

/-- `job.get('technology_adoption', [])`. -/
def Job.getTech (j : Job) : List String := j.technology_adoption.getD []

/-- `job.get('pain_points', [])`. -/
def Job.getPain (j : Job) : List String := j.pain_points.getD []

/-- `job.get('budget_signals', {}).get('salary_ranges', [])`. -/
def Job.getSalaryRanges (j : Job) : List String :=
  match j.budget_signals with
  | some b => b.salary_ranges
  | none => []

/-- `job.get('budget_signals', {}).get('equity_mentions', [])`. -/
def Job.getEquityMentions (j : Job) : List String :=
  match j.budget_signals with
  | some b => b.equity_mentions
  | none => []

/-- One step of the `defaultdict(list)` grouping: append job `j` to the entry
of company `c`, creating the entry at the end if absent (Python dicts keep
insertion order). -/
def addJob (acc : List (String × List Job)) (c : String) (j : Job) :
    List (String × List Job) :=
  match acc with
  | [] => [(c, [j])]
  | e :: rest => if e.1 = c then (e.1, e.2 ++ [j]) :: rest else e :: addJob rest c j

/-- One iteration of the grouping loop shared by `CompanyClusterer`,
`OpportunityScorer` and `MLInsightGenerator`: jobs whose company is the
`'Unknown'` placeholder are skipped. -/
def groupStep (acc : List (String × List Job)) (j : Job) : List (String × List Job) :=
  let c := Job.getCompany j
  if c = "Unknown" then acc else addJob acc c j

/-- Group jobs by company, dropping the `'Unknown'` placeholder, in order of
first appearance (`company_data = defaultdict(list)` loops in
`clustering.py` and `ml_insights.py`). -/
def groupByCompany (jobs : List Job) : List (String × List Job) :=
  jobs.foldl groupStep []

/-- `np.mean` over a list; the callers below only apply it to nonempty lists
(division by zero yields the junk value 0 in `ℚ`). -/
def listMean (xs : List ℚ) : ℚ := xs.sum / xs.length

/-- Dot product (`np.dot` over 1-d arrays). -/
def dotProd (xs ys : List ℚ) : ℚ := (List.zipWith (· * ·) xs ys).sum

/-- Python banker's rounding of a rational to the nearest integer
(round-half-to-even), as used by `round(x, 2)`. -/
def roundHalfEven (q : ℚ) : ℤ :=
  if q - Int.floor q < 1/2 then Int.floor q
  else if q - Int.floor q > 1/2 then Int.floor q + 1
  else if 2 ∣ Int.floor q then Int.floor q else Int.floor q + 1

/-- `round(q, 2)`. -/
def round2 (q : ℚ) : ℚ := (roundHalfEven (100 * q) : ℚ) / 100

/-- Fitted `StandardScaler` statistics (`mean_` and `scale_`);
`transform` maps `x ↦ (x - mean) / scale` componentwise. -/
structure StdScaler where
  mean : List ℚ
  scale : List ℚ
deriving DecidableEq

/-- `StandardScaler.transform` on a single sample. -/
def StdScaler.transform (sc : StdScaler) (xs : List ℚ) : List ℚ :=
  (xs.zip (sc.mean.zip sc.scale)).map (fun p => (p.1 - p.2.1) / p.2.2)

/-- `clustering.OpportunityScorer` model state after `fit`:
learned `feature_weights`, fitted scaler, `is_fitted` flag. -/
structure OpportunityScorer where
  feature_weights : List ℚ
  scaler : StdScaler
  is_fitted : Bool
deriving DecidableEq

/-- `'AI', 'ML', ...` list in `_extract_opportunity_features`. -/
def highValueTech : List String :=
  ["AI", "ML", "Machine Learning", "AWS", "Kubernetes", "React", "Python"]

/-- Whether `sub` is an initial segment of `text` (helper for Python's
substring containment). -/
def charListStartsWith : List Char → List Char → Bool
  | _, [] => true
  | [], _ :: _ => false
  | c :: cs, d :: ds => c == d && charListStartsWith cs ds

/-- Whether `sub` occurs inside `text` (helper for Python's substring
containment). -/
def charListContains (text sub : List Char) : Bool :=
  charListStartsWith text sub ||
    match text with
    | [] => false
    | _ :: rest => charListContains rest sub

/-- Python `sub in text` (substring containment). -/
def containsSub (text sub : String) : Bool := charListContains text.data sub.data

/-- Python `str.lower()`: `String.toLower`, written as a structural map over
the character list. -/
def strLower (s : String) : String := ⟨s.data.map Char.toLower⟩

/-- `OpportunityScorer._extract_opportunity_features` (clustering.py 202-265):
the 12-entry feature vector of one company's postings. -/
def extractOpportunityFeatures (company_jobs : List Job) : List ℚ :=
  if company_jobs = [] then List.replicate 12 0
  else
    let total_jobs : ℚ := company_jobs.length
    let urgent_jobs : ℚ := (company_jobs.filter (fun j => Job.getUrgent j ≠ [])).length
    let urgency_score := urgent_jobs / total_jobs
    let all_tech := company_jobs.flatMap Job.getTech
    let tech_diversity : ℚ := all_tech.dedup.length
    let tech_volume : ℚ := all_tech.length
    let high_value_count : ℚ := (all_tech.filter (fun t => t ∈ highValueTech)).length
    let high_value_ratio := if all_tech ≠ [] then high_value_count / all_tech.length else 0
    let departments := company_jobs.map Job.getDepartment
    let dept_diversity : ℚ := departments.dedup.length
    let engineering_jobs : ℚ :=
      (departments.filter (fun d => containsSub (strLower d) "engineer")).length
    let engineering_ratio := engineering_jobs / total_jobs
    let pain_points_count : ℚ := (company_jobs.flatMap Job.getPain).length
    let jobs_with_salary : ℚ :=
      (company_jobs.filter (fun j => Job.getSalaryRanges j ≠ [])).length
    let jobs_with_equity : ℚ :=
      (company_jobs.filter (fun j => Job.getEquityMentions j ≠ [])).length
    let budget_transparency := jobs_with_salary / total_jobs
    let equity_offering := jobs_with_equity / total_jobs
    let avg_desc_length := listMean (company_jobs.map (fun j => ((Job.getDescription j).length : ℚ)))
    [total_jobs, urgency_score, tech_diversity, tech_volume, high_value_ratio,
     dept_diversity, engineering_ratio, pain_points_count, budget_transparency,
     equity_offering, avg_desc_length / 1000, min (total_jobs / 10) 1]

/-- One output record of `score_opportunities`; the `feature_scores` sub-dict
is flattened into the four named fields it carries. -/
structure OppEntry where
  company : String
  opportunity_score : ℚ
  priority_level : String
  job_count : ℕ
  hiring_velocity : ℚ
  tech_adoption : ℚ
  scaling_signals : ℚ
  pain_points : ℚ
deriving DecidableEq

/-- Loop body of `OpportunityScorer.score_opportunities` for one company:
scale the features, take the weighted score, clamp into `[0, 100]`, derive the
priority tier, round the reported score to two decimals. -/
def scoreEntry (s : OpportunityScorer) (company : String) (company_jobs : List Job) :
    OppEntry :=
  let features := extractOpportunityFeatures company_jobs
  let features_scaled := s.scaler.transform features
  let opportunity_score := max 0 (min 100 (dotProd features_scaled s.feature_weights * 100))
  let priority :=
    if opportunity_score ≥ 80 then "High"
    else if opportunity_score ≥ 60 then "Medium"
    else "Low"
  { company := company
    opportunity_score := round2 opportunity_score
    priority_level := priority
    job_count := company_jobs.length
    hiring_velocity := features.getD 1 0
    tech_adoption := features.getD 4 0
    scaling_signals := features.getD 0 0
    pain_points := features.getD 7 0 }

/-- `OpportunityScorer.score_opportunities` (clustering.py 329-379): raises if
unfitted, else scores every company and sorts descending by the (rounded)
score; Python `list.sort` is stable, as is `List.insertionSort`. -/
def score_opportunities (s : OpportunityScorer) (jobs : List Job) :
    Except String (List OppEntry) :=
  if ¬ s.is_fitted then .error "Model must be fitted before scoring"
  else
    .ok (List.insertionSort (fun a b => b.opportunity_score ≤ a.opportunity_score)
      ((groupByCompany jobs).map (fun g => scoreEntry s g.1 g.2)))

/-! ## CompanyClusterer (clustering.py 17-134)

scikit-learn pieces are parameters: `pl` is the composite
`StandardScaler.fit_transform ∘ PCA.fit_transform` preprocessing (only its
row-count preservation matters to the claims) and `km k pts` is
`KMeans(n_clusters=k, random_state=42).fit_predict(pts)`.  With the seed fixed
by the constructor, both are deterministic functions. -/

/-- `CompanyClusterer._extract_company_features` (clustering.py 28-94): the
10-entry feature row of one company. -/
def companyFeatureRow (company_jobs : List Job) : List ℚ :=
  let total_jobs : ℚ := company_jobs.length
  let urgent_jobs : ℚ := (company_jobs.filter (fun j => Job.getUrgent j ≠ [])).length
  let urgent_ratio := if company_jobs.length > 0 then urgent_jobs / total_jobs else 0
  let all_tech := company_jobs.flatMap Job.getTech
  let unique_tech : ℚ := all_tech.dedup.length
  let tech_mentions : ℚ := all_tech.length
  let dept_diversity : ℚ := (company_jobs.map Job.getDepartment).dedup.length
  let all_pain_points := company_jobs.flatMap Job.getPain
  let pain_points_count : ℚ := all_pain_points.length
  let unique_pain_points : ℚ := all_pain_points.dedup.length
  let jobs_with_salary : ℚ :=
    (company_jobs.filter (fun j => Job.getSalaryRanges j ≠ [])).length
  let jobs_with_equity : ℚ :=
    (company_jobs.filter (fun j => Job.getEquityMentions j ≠ [])).length
  let salary_transparency := if company_jobs.length > 0 then jobs_with_salary / total_jobs else 0
  let equity_ratio := if company_jobs.length > 0 then jobs_with_equity / total_jobs else 0
  let avg_description_length :=
    listMean (company_jobs.map (fun j => ((Job.getDescription j).length : ℚ)))
  [total_jobs, urgent_ratio, unique_tech, tech_mentions, dept_diversity,
   pain_points_count, unique_pain_points, salary_transparency, equity_ratio,
   avg_description_length]

/-- `CompanyClusterer._extract_company_features`: the parallel company list and
feature matrix. -/
def extractCompanyFeatures (jobs : List Job) : List String × List (List ℚ) :=
  let groups := groupByCompany jobs
  (groups.map Prod.fst, groups.map (fun g => companyFeatureRow g.2))

/-- Cluster-count adjustment at clustering.py 100-103: with fewer companies
than requested clusters, the count is reduced to `max 2 company_count`. -/
def effectiveK (n_clusters count : ℕ) : ℕ :=
  if count < n_clusters then max 2 count else n_clusters

/-- `CompanyClusterer.fit_predict` (clustering.py 96-134).  `KMeans.fit`
raises `ValueError` when it is given fewer samples than clusters (that is also
where the scaler/PCA reject an empty matrix), modelled by the guard; otherwise
the returned mapping is `dict(zip(companies, cluster_labels))`. -/
def fit_predict (km : ℕ → List (List ℚ) → List ℕ)
    (pl : List (List ℚ) → List (List ℚ)) (n_clusters : ℕ) (jobs : List Job) :
    Except String (List (String × ℕ)) :=
  let cf := extractCompanyFeatures jobs
  let k := effectiveK n_clusters cf.1.length
  if cf.1.length < k then .error "n_samples should be at least n_clusters"
  else
    let labels := km k (pl cf.2)
    .ok (cf.1.zip labels)

/-! ## Rule-based urgency extraction and the ML signal processor
(`signals.py`, `ml_processor.py`, `text_classifier.py`)

The regex engine is a parameter `findall : pattern → text → matches`
(`re.findall`); the trained random-forest model of `UrgencyClassifier` is a
pair of abstract per-description functions, only reachable when
`is_trained`. -/

/-- The `urgent_patterns` list of `signals.extract_urgent_hiring_language`. -/
def urgentPatterns : List String :=
  ["\\basap\\b", "\\bimmediate\\b", "\\bstart now\\b", "\\bstart immediately\\b",
   "\\burgent\\b", "\\brushing\\b", "\\bquickly\\b", "\\bfast.track\\b",
   "\\bexpedite\\b", "\\bhiring now\\b", "\\bstart monday\\b",
   "\\bstart this week\\b", "\\bneed someone now\\b", "\\bfill immediately\\b",
   "\\bhigh priority\\b", "\\btime.sensitive\\b", "\\bcan you start\\b"]

/-- `signals.extract_urgent_hiring_language` (signals.py 57-89): empty input
short-circuits; otherwise all pattern matches over the lowercased text are
collected and deduplicated (`list(set(...))`; the set's iteration order is
arbitrary, so only the deduplicated contents are modelled). -/
def extract_urgent_hiring_language (findall : String → String → List String)
    (description : String) : List String :=
  if description = "" then []
  else (urgentPatterns.flatMap (fun p => findall p (strLower description))).dedup

/-- `UrgencyClassifier` state: `is_trained` plus the fitted
vectorizer-and-model pipeline, abstracted as per-description probability and
class functions. -/
structure UrgencyClassifier where
  probaFn : String → ℚ
  classFn : String → ℕ
  is_trained : Bool

/-- `UrgencyClassifier.predict` (text_classifier.py 80-86). -/
def UrgencyClassifier.predict (c : UrgencyClassifier) (descriptions : List String) :
    Except String (List ℕ) :=
  if ¬ c.is_trained then .error "Model must be trained before prediction"
  else .ok (descriptions.map c.classFn)

/-- `UrgencyClassifier.predict_proba` (text_classifier.py 88-96). -/
def UrgencyClassifier.predict_proba (c : UrgencyClassifier) (descriptions : List String) :
    Except String (List ℚ) :=
  if ¬ c.is_trained then .error "Model must be trained before prediction"
  else .ok (descriptions.map c.probaFn)

/-- `UrgencyClassifier._create_training_labels` (text_classifier.py 27-41):
descriptions and weak binary labels (1 iff the stored rule-based
`urgent_hiring_language` list is nonempty). -/
def create_training_labels (jobs : List Job) : List String × List ℕ :=
  (jobs.map Job.getDescription,
   jobs.map (fun j => if (Job.getUrgent j).length > 0 then 1 else 0))

/-- One entry of the `process_urgency_ml` result list. -/
structure UrgencyResult where
  ml_urgency_score : ℚ
  ml_urgency_class : ℕ
  rule_based_signals : List String
  combined_urgency : Bool
  confidence : String
deriving DecidableEq

/-- `MLSignalProcessor` state (ml_processor.py 31-47): the two flags plus the
urgency classifier (the tech classifier and feature extractor play no part in
`process_urgency_ml`). -/
structure MLSignalProcessor where
  use_ml : Bool
  ml_models_available : Bool
  urgency_classifier : UrgencyClassifier

/-- Loop body of the rule-based fallback of `process_urgency_ml`
(ml_processor.py 115-124). -/
def fallbackUrgencyResult (findall : String → String → List String)
    (desc : String) : UrgencyResult :=
  let rule_based_signals := extract_urgent_hiring_language findall desc
  { ml_urgency_score := if rule_based_signals ≠ [] then 1 else 0
    ml_urgency_class := if rule_based_signals ≠ [] then 1 else 0
    rule_based_signals := rule_based_signals
    combined_urgency := rule_based_signals.length > 0
    confidence := "rule_based" }

/-- Loop body of the ML branch of `process_urgency_ml`
(ml_processor.py 95-106). -/
def mlUrgencyResult (findall : String → String → List String)
    (desc : String) (score : ℚ) (cls : ℕ) : UrgencyResult :=
  let rule_based_signals := extract_urgent_hiring_language findall desc
  { ml_urgency_score := score
    ml_urgency_class := cls
    rule_based_signals := rule_based_signals
    combined_urgency := score > 1/2 ∨ rule_based_signals.length > 0
    confidence :=
      if score > 7/10 ∨ rule_based_signals.length > 2 then "high" else "medium" }

/-- `MLSignalProcessor.process_urgency_ml` (ml_processor.py 85-126): the ML
branch runs only when `use_ml` and `ml_models_available`; any exception there
(in particular the untrained classifier raising in `predict_proba`/`predict`)
falls through to the rule-based loop. -/
def process_urgency_ml (findall : String → String → List String)
    (s : MLSignalProcessor) (descriptions : List String) : List UrgencyResult :=
  if s.use_ml && s.ml_models_available then
    match s.urgency_classifier.predict_proba descriptions,
          s.urgency_classifier.predict descriptions with
    | .ok scores, .ok classes =>
        (descriptions.zip (scores.zip classes)).map
          (fun p => mlUrgencyResult findall p.1 p.2.1 p.2.2)
    | _, _ => descriptions.map (fallbackUrgencyResult findall)
  else descriptions.map (fallbackUrgencyResult findall)

/-! ## HiringTrendPredictor (predictive.py 18-208)

The pandas daily aggregation and the three scikit-learn regressors are
parameters; the repository-side control flow (minimum-data guards, future
feature construction with baseline placeholders, non-negativity clamp) is
translated directly. -/

/-- Result of `HiringTrendPredictor.fit`: either the `{'error': ...}` dict or
a successful training (whose metric dict is not modelled). -/
inductive TrendFitResult where
  | insufficient : String → TrendFitResult
  | trained : TrendFitResult
deriving DecidableEq

/-- `HiringTrendPredictor.fit` (predictive.py 113-171).  `dayCount jobs`
abstracts `len(self._aggregate_daily_data(self._prepare_time_series_data(jobs)))`,
the number of distinct calendar days in the batch; the successful branch
(scaler and regressor fitting) is abstracted into `.trained`. -/
def trendFit (dayCount : List Job → ℕ) (jobs : List Job) : TrendFitResult :=
  if jobs.length < 10 then
    .insufficient "Insufficient data for training (minimum 10 jobs required)"
  else if dayCount jobs < 3 then
    .insufficient "Insufficient time series data (minimum 3 days required)"
  else .trained

/-- Calendar features of one future date (`date.year`, `date.month`,
`date.timetuple().tm_yday`, `date.isocalendar()[1]`). -/
structure DateFeat where
  year : ℚ
  month : ℚ
  day_of_year : ℚ
  week_of_year : ℚ
deriving DecidableEq

/-- The feature row built for a future date in `predict_trends`
(predictive.py 191-200): calendar features plus the hardcoded baseline
placeholders 5.0, 1.5, 0.3, 2000. -/
def futureFeatures (d : DateFeat) : List ℚ :=
  [d.year, d.month, d.day_of_year, d.week_of_year, 5, 3/2, 3/10, 2000]

/-- Fitted `HiringTrendPredictor` state: one abstract fitted regressor and one
abstract fitted scaler per target, plus `is_fitted`. -/
structure TrendPredictor where
  volumeModel : List ℚ → ℚ
  urgencyModel : List ℚ → ℚ
  techModel : List ℚ → ℚ
  volumeScaler : List ℚ → List ℚ
  urgencyScaler : List ℚ → List ℚ
  techScaler : List ℚ → List ℚ
  is_fitted : Bool

/-- The `predictions` dict returned by `predict_trends`. -/
structure TrendPredictions where
  dates : List String
  volume : List ℚ
  urgency : List ℚ
  tech_adoption : List ℚ
deriving DecidableEq

/-- `HiringTrendPredictor.predict_trends` (predictive.py 173-208).
`dateOf i` abstracts `datetime.now() + timedelta(days=i)` (the wall clock is
an explicit input) and `fmt` its `strftime`; each prediction is clamped with
`max(0, pred)`. -/
def predict_trends (dateOf : ℕ → DateFeat) (fmt : DateFeat → String)
    (p : TrendPredictor) (days_ahead : ℕ) : Except String TrendPredictions :=
  if ¬ p.is_fitted then .error "Model must be fitted before prediction"
  else
    let future_dates := (List.range days_ahead).map (fun i => dateOf (i + 1))
    .ok
      { dates := future_dates.map fmt
        volume := future_dates.map
          (fun d => max 0 (p.volumeModel (p.volumeScaler (futureFeatures d))))
        urgency := future_dates.map
          (fun d => max 0 (p.urgencyModel (p.urgencyScaler (futureFeatures d))))
        tech_adoption := future_dates.map
          (fun d => max 0 (p.techModel (p.techScaler (futureFeatures d)))) }

/-! ## Orchestrators (ml_agent_runner.py 65-121, ml_insights.py 40-412) -/

/-- `MLJobIntelligenceSystem.train_all_models` (ml_agent_runner.py 65-121):
the `len(jobs) < 10` guard raises `ValueError`; `body` abstracts the six
training steps of the `try` block (any exception there is re-raised). -/
def train_all_models (body : List Job → Except String Unit) (jobs : List Job) :
    Except String Unit :=
  if jobs.length < 10 then
    .error "Insufficient data for ML training. Need at least 10 jobs."
  else body jobs

/-- One record of `MLInsightGenerator._generate_rule_based_opportunities`. -/
structure RuleOpp where
  company : String
  opportunity_score : ℕ
  priority_level : String
  job_count : ℕ
  scoring_method : String
deriving DecidableEq

/-- `MLInsightGenerator._generate_rule_based_opportunities`
(ml_insights.py 322-354): per-company keyword scoring, capped at 100, with
fixed 70/40 priority thresholds, sorted descending by score (Python `sorted`
is stable, as is `List.insertionSort`). -/
def rule_based_opportunities (jobs : List Job) : List RuleOpp :=
  List.insertionSort (fun a b => b.opportunity_score ≤ a.opportunity_score)
    ((groupByCompany jobs).map (fun g =>
      let job_count := g.2.length
      let urgent_count := (g.2.filter (fun j => Job.getUrgent j ≠ [])).length
      let tech_count := (g.2.map (fun j => (Job.getTech j).length)).sum
      let score := min 100 (job_count * 10 + urgent_count * 20 + tech_count * 2)
      let priority := if score ≥ 70 then "High" else if score ≥ 40 then "Medium" else "Low"
      { company := g.1
        opportunity_score := score
        priority_level := priority
        job_count := job_count
        scoring_method := "rule_based" : RuleOpp }))

/-- `MLInsightGenerator` state (ml_insights.py 43-56): the two flags plus the
opportunity scorer (the clusterer and trend predictor do not feed the
opportunity-ranking path modelled here). -/
structure MLInsightGenerator where
  use_ml : Bool
  ml_models_available : Bool
  opportunity_scorer : OpportunityScorer

/-- `MLInsightGenerator.train_ml_models` (ml_insights.py 58-95): skipped when
ML is off or fewer than 10 jobs; otherwise `trainBody` abstracts the `try`
block training clusterer, scorer and predictor — on success
`ml_models_available` is set, on exception `use_ml` is cleared. -/
def gen_train_ml_models
    (trainBody : MLInsightGenerator → List Job → MLInsightGenerator × Except String Unit)
    (s : MLInsightGenerator) (jobs : List Job) : MLInsightGenerator :=
  if ¬ s.use_ml || jobs.length < 10 then s
  else
    match trainBody s jobs with
    | (s₁, .ok _) => { s₁ with ml_models_available := true }
    | (s₁, .error _) => { s₁ with use_ml := false }

/-- The opportunity-score section of the insight report: either the
ML-enhanced entries (their added service/timing decorations are not modelled)
or the rule-based fallback entries. -/
inductive OppScores where
  | ml : List OppEntry → OppScores
  | ruleBased : List RuleOpp → OppScores
deriving DecidableEq

/-- `MLInsightGenerator.generate_ml_opportunity_scores`
(ml_insights.py 148-183): rule-based when models are unavailable or when
`score_opportunities` raises. -/
def generate_ml_opportunity_scores (s : MLInsightGenerator) (jobs : List Job) :
    OppScores :=
  if ¬ s.ml_models_available then .ruleBased (rule_based_opportunities jobs)
  else
    match score_opportunities s.opportunity_scorer jobs with
    | .ok opportunities => .ml opportunities
    | .error _ => .ruleBased (rule_based_opportunities jobs)

/-- `[:15]` truncation applied to `opportunity_rankings`
(ml_insights.py 401). -/
def OppScores.take15 : OppScores → OppScores
  | .ml l => .ml (l.take 15)
  | .ruleBased l => .ruleBased (l.take 15)

/-- The fields of the comprehensive insight report that the opportunity-path
claims concern (`analysis_method`, `opportunity_rankings`); the clustering and
trend sections of the dict are built by independent sub-calls and are not
modelled. -/
structure ComprehensiveInsights where
  analysis_method : String
  opportunity_rankings : OppScores
deriving DecidableEq

/-- `MLInsightGenerator.generate_comprehensive_insights_ml`
(ml_insights.py 380-412): train if needed, then collect the report. -/
def generate_comprehensive_insights
    (trainBody : MLInsightGenerator → List Job → MLInsightGenerator × Except String Unit)
    (s : MLInsightGenerator) (jobs : List Job) : ComprehensiveInsights :=
  let s₁ := if s.use_ml && ¬ s.ml_models_available
    then gen_train_ml_models trainBody s jobs else s
  let opportunity_scores := generate_ml_opportunity_scores s₁ jobs
  { analysis_method := if s₁.ml_models_available then "ml_enhanced" else "rule_based"
    opportunity_rankings := opportunity_scores.take15 }

/-! ## JobFeatureExtractor (feature_engineering.py 16-141)

TF-IDF vectorization and numeric standardization are scikit-learn calls,
abstracted as the parameters `fitT` (vectorizer fitted on the given corpus)
and `fitS` (scaler fitted on the given matrix) plus the fitted
`tfidfTransform` / `scalerTransform` functions stored in the state.  The label
encoding (`LabelEncoder` over string columns) is simple enough to model
exactly: `classes_` is the sorted deduplicated value list, `transform` maps a
value to its index and raises on a value outside `classes_`. -/

/-- `JobFeatureExtractor` state: fitted vectorizer and scaler transforms, the
per-column label encoders (`classes_` lists), and `is_fitted`. -/
structure FeatureExtractor where
  tfidfTransform : String → List ℚ
  scalerTransform : List ℚ → List ℚ
  label_encoders : List (String × List String)
  is_fitted : Bool

/-- `JobFeatureExtractor.extract_text_features` (feature_engineering.py
29-38): fit-transform on the first call, transform afterwards; either way one
row per posting. -/
def extract_text_features (fitT : List String → String → List ℚ)
    (s : FeatureExtractor) (jobs : List Job) : List (List ℚ) :=
  let descriptions := jobs.map Job.getDescription
  if ¬ s.is_fitted then descriptions.map (fitT descriptions)
  else descriptions.map s.tfidfTransform

/-- The categorical field read for one DataFrame column
(feature_engineering.py 45-50). -/
def Job.getField (j : Job) : String → String
  | "company" => j.getCompany
  | "location" => j.getLocation
  | "department" => j.getDepartment
  | "source" => j.getSource
  | _ => "Unknown"

/-- The DataFrame columns, in dict-insertion order; `pd.DataFrame([])` has no
columns at all. -/
def categoricalCols (jobs : List Job) : List String :=
  if jobs.isEmpty then [] else ["company", "location", "department", "source"]

/-- `LabelEncoder.fit`: `classes_` is the sorted list of distinct values
(`np.unique`). -/
def labelEncoderClasses (values : List String) : List String :=
  List.insertionSort (fun a b => a ≤ b) values.dedup

/-- Encoding of one column (loop body at feature_engineering.py 56-66).
First call on a column fits the encoder (encoding each value by its index in
`classes_`); later calls replace values outside `classes_` by `'Unknown'` and
then `LabelEncoder.transform` raises iff a value (in particular the
`'Unknown'` sentinel itself) is not among `classes_`. -/
def encodeColumn (s : FeatureExtractor) (jobs : List Job) (col : String) :
    FeatureExtractor × Except String (List ℕ) :=
  let values := jobs.map (fun j => Job.getField j col)
  match s.label_encoders.lookup col with
  | none =>
      let classes := labelEncoderClasses values
      ({ s with label_encoders := s.label_encoders ++ [(col, classes)] },
       .ok (values.map (fun v => (classes.findIdx? (fun c => c == v)).getD 0)))
  | some classes =>
      let values₁ := values.map (fun v => if v ∈ classes then v else "Unknown")
      match values₁.mapM (fun v => classes.findIdx? (fun c => c == v)) with
      | some enc => (s, .ok enc)
      | none => (s, .error "y contains previously unseen labels")

/-- The column loop of `extract_categorical_features`, threading the encoder
state and propagating the first raised error. -/
def encodeColumns (s : FeatureExtractor) (jobs : List Job) :
    List String → FeatureExtractor × Except String (List (List ℕ))
  | [] => (s, .ok [])
  | col :: rest =>
      match encodeColumn s jobs col with
      | (s₁, .ok enc) =>
          match encodeColumns s₁ jobs rest with
          | (s₂, .ok encs) => (s₂, .ok (enc :: encs))
          | (s₂, .error e) => (s₂, .error e)
      | (s₁, .error e) => (s₁, .error e)

/-- `JobFeatureExtractor.extract_categorical_features` (feature_engineering.py
40-68): encode every DataFrame column, then `np.hstack` the column vectors
into one row-major matrix — `np.hstack([])` raises when there is no column to
stack. -/
def extract_categorical_features (s : FeatureExtractor) (jobs : List Job) :
    FeatureExtractor × Except String (List (List ℕ)) :=
  match encodeColumns s jobs (categoricalCols jobs) with
  | (s₁, .ok encs) =>
      if encs.isEmpty then (s₁, .error "need at least one array to concatenate")
      else (s₁, .ok encs.transpose)
  | (s₁, .error e) => (s₁, .error e)

/-- Python `description.split()`: split on whitespace runs, dropping empty
pieces. -/
def splitWords (s : String) : List String :=
  (s.split Char.isWhitespace).filter (fun w => w ≠ "")

/-- Python `text.count(needle)` for a nonempty needle: number of
non-overlapping occurrences. -/
def countOccurrences (text needle : String) : ℕ := (text.splitOn needle).length - 1

/-- `requirements_keywords` (feature_engineering.py 91). -/
def requirementsKeywords : List String :=
  ["required", "must", "essential", "mandatory", "preferred"]

/-- `benefits_keywords` (feature_engineering.py 95). -/
def benefitsKeywords : List String :=
  ["benefit", "insurance", "vacation", "pto", "equity", "stock", "bonus"]

/-- The 9-entry raw numeric feature row of one posting
(feature_engineering.py 74-110), before standardization. -/
def numericRow (j : Job) : List ℚ :=
  let description := Job.getDescription j
  let words := splitWords description
  let desc_length : ℚ := description.length
  let word_count : ℚ := words.length
  let avg_word_length :=
    if words ≠ [] then listMean (words.map (fun w => (w.length : ℚ))) else 0
  let unique_words : ℚ := (splitWords (strLower description)).dedup.length
  let exclamation_count : ℚ := description.toList.count (Char.ofNat 33)
  let question_count : ℚ := description.toList.count (Char.ofNat 63)
  let caps_ratio :=
    if description ≠ "" then
      ((description.toList.filter Char.isUpper).length : ℚ) / description.length
    else 0
  let requirements_count : ℚ :=
    (requirementsKeywords.map (countOccurrences (strLower description))).sum
  let benefits_count : ℚ :=
    (benefitsKeywords.map (countOccurrences (strLower description))).sum
  [desc_length, word_count, avg_word_length, unique_words, exclamation_count,
   question_count, caps_ratio, requirements_count, benefits_count]

/-- `JobFeatureExtractor.extract_numerical_features` (feature_engineering.py
70-119): raw rows, standardized by the fresh scaler on the first call and by
the stored scaler afterwards.  (The scikit-learn shape error this raises on an
empty batch is unreachable from `extract_all_features`, where the categorical
step raises first.) -/
def extract_numerical_features (fitS : List (List ℚ) → List ℚ → List ℚ)
    (s : FeatureExtractor) (jobs : List Job) : List (List ℚ) :=
  let rows := jobs.map numericRow
  if ¬ s.is_fitted then rows.map (fitS rows) else rows.map s.scalerTransform

/-- The dict returned by `extract_all_features`. -/
structure FeatureBundle where
  text_features : List (List ℚ)
  categorical_features : List (List ℕ)
  numerical_features : List (List ℚ)
  combined_features : List (List ℚ)
deriving DecidableEq

/-- `JobFeatureExtractor.extract_all_features` (feature_engineering.py
121-141): the three blocks in order (an exception in the categorical step
aborts before the numeric step runs), the row-wise `np.hstack`, and the state
update fixing the fitted transforms and setting `is_fitted`. -/
def extract_all_features (fitT : List String → String → List ℚ)
    (fitS : List (List ℚ) → List ℚ → List ℚ) (s : FeatureExtractor)
    (jobs : List Job) : FeatureExtractor × Except String FeatureBundle :=
  let text := extract_text_features fitT s jobs
  match extract_categorical_features s jobs with
  | (s₁, .error e) => (s₁, .error e)
  | (s₁, .ok cat) =>
      let nums := extract_numerical_features fitS s jobs
      let combined := (text.zip (cat.zip nums)).map
        (fun r => r.1 ++ r.2.1.map (fun n => (n : ℚ)) ++ r.2.2)
      let s₂ := { s₁ with
        is_fitted := true
        tfidfTransform :=
          if ¬ s.is_fitted then fitT (jobs.map Job.getDescription) else s.tfidfTransform
        scalerTransform :=
          if ¬ s.is_fitted then fitS (jobs.map numericRow) else s.scalerTransform }
      (s₂, .ok { text_features := text, categorical_features := cat,
                 numerical_features := nums, combined_features := combined })

/-! ## TechStackClassifier (text_classifier.py 111-236)

The shared TF-IDF vectorization and the per-category logistic regressions are
abstracted into `fitModel category jobs`, the fitted probability function of
one category (its possible failure on an empty vocabulary is outside the
claims); the label derivation and the degenerate-label skip are translated
directly. -/

/-- The `categories` keyword dict of `_categorize_technologies`
(text_classifier.py 129-136). -/
def techCategoryKeywords : List (String × List String) :=
  [("Programming Languages",
    ["Python", "Java", "JavaScript", "TypeScript", "Go", "Rust", "C++", "C#",
     "PHP", "Ruby", "Swift", "Kotlin"]),
   ("Web Frameworks",
    ["React", "Angular", "Vue", "Django", "Flask", "Express", "Node.js",
     "Next.js", "Laravel", "Rails"]),
   ("Cloud Platforms", ["AWS", "Azure", "GCP", "Google Cloud", "Docker", "Kubernetes"]),
   ("Databases",
    ["PostgreSQL", "MySQL", "MongoDB", "Redis", "Elasticsearch", "Cassandra",
     "DynamoDB"]),
   ("DevOps Tools",
    ["Jenkins", "GitLab CI", "GitHub Actions", "Terraform", "Ansible",
     "Grafana", "Prometheus"]),
   ("AI/ML Libraries",
    ["TensorFlow", "PyTorch", "Scikit-learn", "Pandas", "NumPy", "Keras"])]

/-- `self.tech_categories` (text_classifier.py 117-124). -/
def tech_categories : List String :=
  ["Programming Languages", "Web Frameworks", "Cloud Platforms", "Databases",
   "DevOps Tools", "AI/ML Libraries"]

/-- The first category whose keyword list contains the technology (the inner
`break` of `_categorize_technologies`). -/
def firstCategoryOf (tech : String) : Option String :=
  (techCategoryKeywords.find? (fun p => decide (tech ∈ p.2))).map Prod.fst

/-- `_categorize_technologies(tech_list)[category]`: the technologies of the
list whose first matching category is `category`, in order. -/
def categorizedFor (category : String) (tech_list : List String) : List String :=
  tech_list.filter (fun t => firstCategoryOf t == some category)

/-- The binary label column built for one category in `TechStackClassifier.train`
(text_classifier.py 158-164). -/
def techLabels (category : String) (jobs : List Job) : List ℕ :=
  jobs.map (fun j =>
    if (categorizedFor category (Job.getTech j)).length > 0 then 1 else 0)

/-- `TechStackClassifier` state: the per-category fitted models dict and
`is_trained`. -/
structure TechStackClassifier where
  models : List (String × (String → ℚ))
  is_trained : Bool

/-- Per-category step of `TechStackClassifier.train`: a category whose labels
are degenerate (`len(set(labels)) < 2`) gets no model; otherwise its fitted
model is stored. -/
def techTrainStep (fitModel : String → List Job → (String → ℚ)) (jobs : List Job)
    (ms : List (String × (String → ℚ))) (category : String) :
    List (String × (String → ℚ)) :=
  let labels := techLabels category jobs
  if labels.dedup.length < 2 then ms
  else ms ++ [(category, fitModel category jobs)]

/-- `TechStackClassifier.train` (text_classifier.py 148-194): run the category
loop, then set `is_trained` unconditionally (the returned per-category metric
dict is not modelled). -/
def techTrain (fitModel : String → List Job → (String → ℚ))
    (s : TechStackClassifier) (jobs : List Job) : TechStackClassifier :=
  { models := tech_categories.foldl (techTrainStep fitModel jobs) s.models
    is_trained := true }

/-- `TechStackClassifier.predict_tech_categories` (text_classifier.py
196-211): raises when untrained, else returns one `{category: probability}`
mapping per description, ranging over the models dict. -/
def predict_tech_categories (s : TechStackClassifier) (descriptions : List String) :
    Except String (List (List (String × ℚ))) :=
  if ¬ s.is_trained then .error "Models must be trained before prediction"
  else .ok (descriptions.map (fun d => s.models.map (fun m => (m.1, m.2 d))))

/-- One full inference pass of the three numeric subsystems named by the
determinism property: clustering, opportunity scoring and trend prediction on
one dataset.  All randomness is behind the fixed seed 42, so `km` and the
fitted model functions are ordinary deterministic inputs, and the wall clock
enters only through `dateOf`. -/
def pipelineRun (km : ℕ → List (List ℚ) → List ℕ)
    (pl : List (List ℚ) → List (List ℚ)) (n_clusters : ℕ)
    (scorer : OpportunityScorer) (dateOf : ℕ → DateFeat) (fmt : DateFeat → String)
    (tp : TrendPredictor) (days_ahead : ℕ) (jobs : List Job) :
    Except String (List (String × ℕ)) × Except String (List OppEntry) ×
      Except String TrendPredictions :=
  (fit_predict km pl n_clusters jobs, score_opportunities scorer jobs,
   predict_trends dateOf fmt tp days_ahead)

/-- Equality of modelled raised-or-returned results is decidable (used to
evaluate the development at concrete inputs). -/
instance instDecidableEqExceptR {e a : Type} [DecidableEq e] [DecidableEq a] :
    DecidableEq (Except e a) := fun x y =>
  match x, y with
  | .ok v, .ok w =>
      if h : v = w then .isTrue (congrArg Except.ok h)
      else .isFalse (fun hc => h (Except.ok.inj hc))
  | .error v, .error w =>
      if h : v = w then .isTrue (congrArg Except.error h)
      else .isFalse (fun hc => h (Except.error.inj hc))
  | .ok _, .error _ => .isFalse (fun hc => Except.noConfusion hc)
  | .error _, .ok _ => .isFalse (fun hc => Except.noConfusion hc)

/-- Fitted scorer state used to witness C1 (any fitted state is admissible;
the scaler statistics and learned weights are model data). -/
def c1Scorer : OpportunityScorer :=
  { feature_weights := List.replicate 12 (1/12)
    scaler := { mean := [], scale := [] }
    is_fitted := true }

/-- Posting used to witness C1. -/
def c1Job : Job := { company := some "Acme", description := some "" }

/-- One-posting batch used to witness C1. -/
def c1Jobs : List Job := [c1Job]

/-- The scored record of `c1Job`. -/
def c1Entry : OppEntry :=
  { company := "Acme", opportunity_score := 0, priority_level := "Low",
    job_count := 1, hiring_velocity := 0, tech_adoption := 0,
    scaling_signals := 1, pain_points := 0 }

/-- The scored output on `c1Jobs`. -/
def c1Res : List OppEntry := [c1Entry]

/-- The stand-in k-means assignment used at the concrete inputs: sample `i`
goes to cluster `i mod k`.  It satisfies the contract assumed in
`c2_cluster_coverage`. -/
def modKMeans : ℕ → List (List ℚ) → List ℕ :=
  fun k pts => (List.range pts.length).map (fun i => i % k)

/-- Posting whose company is literally the `'Unknown'` placeholder. -/
def c2JobU : Job := { company := some "Unknown", description := some "" }

/-- Posting of company `A`. -/
def c2JobA : Job := { company := some "A" }

/-- Posting of company `B`. -/
def c2JobB : Job := { company := some "B" }

/-- Three-posting batch containing an `'Unknown'` company posting. -/
def c2Jobs : List Job := [c2JobU, c2JobA, c2JobB]

/-- Single-company batch used against C7. -/
def c7Jobs : List Job := [c2JobA]

/-- Regex primitive used at the C3 concrete input (any function is
admissible: the claim holds for every matcher). -/
def c3Findall : String → String → List String := fun _ _ => []

/-- Untrained urgency classifier (fresh `UrgencyClassifier()` state). -/
def c3Classifier : UrgencyClassifier :=
  { probaFn := fun _ => 0, classFn := fun _ => 0, is_trained := false }

/-- Signal-processor state whose classifier is untrained. -/
def c3Proc : MLSignalProcessor :=
  { use_ml := true, ml_models_available := false, urgency_classifier := c3Classifier }

/-- Description batch used to witness C3. -/
def c3Descs : List String := ["urgent role", ""]

/-- Unfitted opportunity scorer (fresh `OpportunityScorer()` state). -/
def c4Scorer : OpportunityScorer :=
  { feature_weights := [], scaler := { mean := [], scale := [] }, is_fitted := false }

/-- Fresh `MLInsightGenerator(use_ml=True)` state. -/
def c4Gen : MLInsightGenerator :=
  { use_ml := true, ml_models_available := false, opportunity_scorer := c4Scorer }

/-- Training body stand-in for the C4 concrete input. -/
def c4TrainBody : MLInsightGenerator → List Job → MLInsightGenerator × Except String Unit :=
  fun s _ => (s, .ok ())

/-- Small batch (3 postings, fewer than 10) used for C4. -/
def c4Jobs : List Job := [c2JobA, c2JobB, c2JobU]

/-- Single-posting batch used in the C4 counterexample. -/
def c4SmallJobs : List Job := [c2JobA]

/-- TF-IDF fit stand-in at the concrete inputs. -/
def trivFitT : List String → String → List ℚ := fun _ _ => []

/-- Scaler fit stand-in at the concrete inputs. -/
def trivFitS : List (List ℚ) → List ℚ → List ℚ := fun _ r => r

/-- Fresh `JobFeatureExtractor()` state. -/
def freshFE : FeatureExtractor :=
  { tfidfTransform := fun _ => [], scalerTransform := fun r => r,
    label_encoders := [], is_fitted := false }

/-- Posting used to fit the feature extractor at the concrete inputs. -/
def c5Job : Job :=
  { company := some "acme", location := some "remote", department := some "eng",
    source := some "indeed", description := some "" }

/-- Extractor state after one successful `extract_all_features` call. -/
def c5Fitted : FeatureExtractor :=
  (extract_all_features trivFitT trivFitS freshFE [c5Job]).1

/-- Posting with a company value unseen at fit time. -/
def c6Job : Job :=
  { company := some "zeta", location := some "remote", department := some "eng",
    source := some "indeed", description := some "" }

/-- Calendar stand-in (`datetime.now() + timedelta(days=i)`) at the concrete
inputs. -/
def c9DateOf : ℕ → DateFeat := fun i => { year := 2026, month := 1, day_of_year := i, week_of_year := 1 }

/-- `strftime` stand-in at the concrete inputs. -/
def c9Fmt : DateFeat → String := fun _ => "2026-01-01"

/-- Fitted trend-predictor state at the concrete inputs. -/
def c9Predictor : TrendPredictor :=
  { volumeModel := fun _ => 0, urgencyModel := fun _ => 0, techModel := fun _ => 0,
    volumeScaler := fun v => v, urgencyScaler := fun v => v, techScaler := fun v => v,
    is_fitted := true }

/-- The prediction dict returned at the concrete inputs of C9. -/
def c9Preds : TrendPredictions :=
  { dates := ["2026-01-01"], volume := [0], urgency := [0], tech_adoption := [0] }

/-- Fresh `TechStackClassifier()` state. -/
def c10Fresh : TechStackClassifier := { models := [], is_trained := false }

/-- Per-category model-fitting stand-in at the concrete inputs. -/
def c10FitModel : String → List Job → (String → ℚ) := fun _ _ _ => 0

/-- Batch whose derived labels are degenerate for every technology category. -/
def c10Jobs : List Job := [c2JobA, c2JobB]

/-! ## Helper lemmas -/

theorem mem_keys_addJob (acc : List (String × List Job)) (c x : String) (j : Job) :
    x ∈ (addJob acc c j).map Prod.fst ↔ x ∈ acc.map Prod.fst ∨ x = c := by
  induction acc with
  | nil => simp [addJob]
  | cons e rest ih =>
      by_cases h : e.1 = c
      · simp only [addJob, h, eq_self_iff_true, if_true, List.map_cons, List.mem_cons]
        tauto
      · simp only [addJob, if_neg h, List.map_cons, List.mem_cons, ih]
        tauto

theorem nodup_keys_addJob (acc : List (String × List Job)) (c : String) (j : Job)
    (h : (acc.map Prod.fst).Nodup) : ((addJob acc c j).map Prod.fst).Nodup := by
  induction acc with
  | nil => simp [addJob]
  | cons e rest ih =>
      simp only [List.map_cons, List.nodup_cons] at h
      by_cases hc : e.1 = c
      · subst hc
        simpa [addJob, List.nodup_cons] using h
      · simp only [addJob, if_neg hc, List.map_cons, List.nodup_cons]
        refine ⟨?_, ih h.2⟩
        rw [mem_keys_addJob]
        rintro (hm | rfl)
        · exact h.1 hm
        · exact hc rfl

theorem length_addJob (acc : List (String × List Job)) (c : String) (j : Job) :
    (addJob acc c j).length ≤ acc.length + 1 := by
  induction acc with
  | nil => simp [addJob]
  | cons e rest ih =>
      by_cases h : e.1 = c
      · simp [addJob, h]
      · simpa [addJob, h] using ih

theorem mem_keys_groupFold (jobs : List Job) :
    ∀ (acc : List (String × List Job)) (x : String),
      x ∈ ((jobs.foldl groupStep acc).map Prod.fst) ↔
        x ∈ acc.map Prod.fst ∨ (x ≠ "Unknown" ∧ ∃ j ∈ jobs, Job.getCompany j = x) := by
  induction jobs with
  | nil => simp
  | cons j rest ih =>
      intro acc x
      rw [List.foldl_cons, ih]
      by_cases hc : Job.getCompany j = "Unknown"
      · have hstep : groupStep acc j = acc := by simp [groupStep, hc]
        rw [hstep]
        constructor
        · rintro (hm | ⟨hx, j₁, hj₁, hcj₁⟩)
          · exact Or.inl hm
          · exact Or.inr ⟨hx, j₁, List.mem_cons_of_mem _ hj₁, hcj₁⟩
        · rintro (hm | ⟨hx, j₁, hj₁, hcj₁⟩)
          · exact Or.inl hm
          · rcases List.mem_cons.mp hj₁ with rfl | h₁
            · exact absurd (hcj₁.symm.trans hc) hx
            · exact Or.inr ⟨hx, j₁, h₁, hcj₁⟩
      · have hstep : groupStep acc j = addJob acc (Job.getCompany j) j := by
          simp [groupStep, hc]
        rw [hstep, mem_keys_addJob]
        constructor
        · rintro ((hm | heq) | ⟨hx, j₁, hj₁, hcj₁⟩)
          · exact Or.inl hm
          · exact Or.inr ⟨fun h => hc (heq ▸ h), j, List.mem_cons_self j rest, heq.symm⟩
          · exact Or.inr ⟨hx, j₁, List.mem_cons_of_mem _ hj₁, hcj₁⟩
        · rintro (hm | ⟨hx, j₁, hj₁, hcj₁⟩)
          · exact Or.inl (Or.inl hm)
          · rcases List.mem_cons.mp hj₁ with rfl | h₁
            · exact Or.inl (Or.inr hcj₁.symm)
            · exact Or.inr ⟨hx, j₁, h₁, hcj₁⟩

theorem nodup_keys_groupFold (jobs : List Job) :
    ∀ acc : List (String × List Job),
      (acc.map Prod.fst).Nodup → ((jobs.foldl groupStep acc).map Prod.fst).Nodup := by
  induction jobs with
  | nil => exact fun acc h => h
  | cons j rest ih =>
      intro acc h
      rw [List.foldl_cons]
      refine ih _ ?_
      by_cases hc : Job.getCompany j = "Unknown"
      · simpa [groupStep, hc] using h
      · simpa [groupStep, hc] using nodup_keys_addJob acc (Job.getCompany j) j h

theorem length_groupFold (jobs : List Job) :
    ∀ acc : List (String × List Job),
      (jobs.foldl groupStep acc).length ≤ acc.length + jobs.length := by
  induction jobs with
  | nil => simp
  | cons j rest ih =>
      intro acc
      rw [List.foldl_cons]
      refine le_trans (ih _) ?_
      have hstep : (groupStep acc j).length ≤ acc.length + 1 := by
        by_cases hc : Job.getCompany j = "Unknown"
        · simp [groupStep, hc]
        · simpa [groupStep, hc] using length_addJob acc (Job.getCompany j) j
      simp only [List.length_cons]
      omega

theorem mem_keys_groupByCompany (jobs : List Job) (x : String) :
    x ∈ (groupByCompany jobs).map Prod.fst ↔
      x ≠ "Unknown" ∧ ∃ j ∈ jobs, Job.getCompany j = x := by
  rw [groupByCompany, mem_keys_groupFold]
  simp

theorem nodup_keys_groupByCompany (jobs : List Job) :
    ((groupByCompany jobs).map Prod.fst).Nodup :=
  nodup_keys_groupFold jobs [] (by simp)

theorem length_groupByCompany_le (jobs : List Job) :
    (groupByCompany jobs).length ≤ jobs.length := by
  simpa using length_groupFold jobs []

theorem roundHalfEven_ge_floor (q : ℚ) : Int.floor q ≤ roundHalfEven q := by
  unfold roundHalfEven
  split
  · exact le_refl _
  · split
    · omega
    · split <;> omega

theorem roundHalfEven_le_of_le {q : ℚ} {n : ℤ} (h : q ≤ (n : ℚ)) :
    roundHalfEven q ≤ n := by
  have hfl : Int.floor q ≤ n := by
    have := Int.floor_le_floor h
    simpa using this
  have hhalf : ¬ (q - Int.floor q < 1/2) → Int.floor q + 1 ≤ n := by
    intro hge
    push_neg at hge
    have h₁ : (Int.floor q : ℚ) + 1/2 ≤ q := by linarith
    have h₂ : (Int.floor q : ℚ) < (n : ℚ) := by linarith
    exact_mod_cast Int.add_one_le_of_lt (by exact_mod_cast h₂)
  unfold roundHalfEven
  split
  · exact hfl
  · split
    · exact hhalf (by assumption)
    · split
      · exact hfl
      · exact hhalf (by assumption)

theorem roundHalfEven_nonneg {q : ℚ} (h : 0 ≤ q) : 0 ≤ roundHalfEven q :=
  le_trans (Int.floor_nonneg.mpr h) (roundHalfEven_ge_floor q)

theorem round2_nonneg {q : ℚ} (h : 0 ≤ q) : 0 ≤ round2 q := by
  have : (0 : ℤ) ≤ roundHalfEven (100 * q) := roundHalfEven_nonneg (by linarith)
  unfold round2
  positivity

theorem round2_le_100 {q : ℚ} (h : q ≤ 100) : round2 q ≤ 100 := by
  have h₁ : roundHalfEven (100 * q) ≤ (10000 : ℤ) :=
    roundHalfEven_le_of_le (by push_cast; linarith)
  have h₂ : ((roundHalfEven (100 * q) : ℚ)) ≤ 10000 := by exact_mod_cast h₁
  unfold round2
  linarith

theorem priority_string_spec (q : ℚ) :
    (((if q ≥ 80 then "High" else if q ≥ 60 then "Medium" else "Low") : String) = "High"
        ↔ 80 ≤ q) ∧
    ((if q ≥ 80 then "High" else if q ≥ 60 then "Medium" else "Low") = "Medium"
        ↔ 60 ≤ q ∧ q < 80) ∧
    ((if q ≥ 80 then "High" else if q ≥ 60 then "Medium" else "Low") = "Low"
        ↔ q < 60) := by
  rcases le_or_lt 80 q with h80 | h80
  · rw [if_pos (show q ≥ 80 from h80)]
    refine ⟨by simpa using h80, ?_, ?_⟩
    · constructor
      · intro h; exact absurd h (by decide)
      · rintro ⟨-, hlt⟩; linarith
    · constructor
      · intro h; exact absurd h (by decide)
      · intro hlt; linarith
  · rw [if_neg (show ¬ q ≥ 80 from not_le.mpr h80)]
    rcases le_or_lt 60 q with h60 | h60
    · rw [if_pos (show q ≥ 60 from h60)]
      refine ⟨?_, by simp [h60, h80], ?_⟩
      · constructor
        · intro h; exact absurd h (by decide)
        · intro hge; linarith
      · constructor
        · intro h; exact absurd h (by decide)
        · intro hlt; linarith
    · rw [if_neg (show ¬ q ≥ 60 from not_le.mpr h60)]
      refine ⟨?_, ?_, by simpa using h60⟩
      · constructor
        · intro h; exact absurd h (by decide)
        · intro hge; linarith
      · constructor
        · intro h; exact absurd h (by decide)
        · rintro ⟨hge, -⟩; linarith

/-! ## C1 — opportunity-score bounds and priority tiers -/

/-- **C1.** For every company record in the output of a successful
`OpportunityScorer.score_opportunities` call (fitted scorer), the clamped
score `q` computed for the company lies in `[0, 100]`; the reported
`opportunity_score` is `q` rounded to two decimals and also lies in
`[0, 100]`; and `priority_level` is exactly `'High'` iff `q ≥ 80`,
`'Medium'` iff `60 ≤ q < 80`, and `'Low'` otherwise. -/
theorem c1_score_bounds_and_priority (s : OpportunityScorer) (jobs : List Job)
    (res : List OppEntry) (hok : score_opportunities s jobs = .ok res) :
    ∀ e ∈ res, ∃ q : ℚ,
      0 ≤ q ∧ q ≤ 100 ∧ e.opportunity_score = round2 q ∧
      0 ≤ e.opportunity_score ∧ e.opportunity_score ≤ 100 ∧
      (e.priority_level = "High" ↔ 80 ≤ q) ∧
      (e.priority_level = "Medium" ↔ 60 ≤ q ∧ q < 80) ∧
      (e.priority_level = "Low" ↔ q < 60) := by
  intro e he
  rw [score_opportunities] at hok
  by_cases hf : s.is_fitted
  · rw [if_neg (not_not_intro hf)] at hok
    have hres := Except.ok.inj hok
    subst hres
    rw [(List.perm_insertionSort _ _).mem_iff] at he
    obtain ⟨g, hg, rfl⟩ := List.mem_map.mp he
    set q := max 0 (min 100
      (dotProd (s.scaler.transform (extractOpportunityFeatures g.2)) s.feature_weights * 100))
      with hqdef
    have h0 : (0 : ℚ) ≤ q := le_max_left _ _
    have h100 : q ≤ 100 := max_le (by norm_num) (min_le_left _ _)
    have hsc : (scoreEntry s g.1 g.2).opportunity_score = round2 q := rfl
    have hpr : (scoreEntry s g.1 g.2).priority_level =
        (if q ≥ 80 then "High" else if q ≥ 60 then "Medium" else "Low") := rfl
    obtain ⟨hH, hM, hL⟩ := priority_string_spec q
    refine ⟨q, h0, h100, hsc, ?_, ?_, ?_, ?_, ?_⟩
    · rw [hsc]; exact round2_nonneg h0
    · rw [hsc]; exact round2_le_100 h100
    · rw [hpr]; exact hH
    · rw [hpr]; exact hM
    · rw [hpr]; exact hL
  · rw [if_pos hf] at hok
    exact Except.noConfusion hok

theorem c1_score_bounds_and_priority_witness :
    score_opportunities c1Scorer c1Jobs = .ok c1Res ∧
    (∀ e ∈ c1Res, ∃ q : ℚ,
      0 ≤ q ∧ q ≤ 100 ∧ e.opportunity_score = round2 q ∧
      0 ≤ e.opportunity_score ∧ e.opportunity_score ≤ 100 ∧
      (e.priority_level = "High" ↔ 80 ≤ q) ∧
      (e.priority_level = "Medium" ↔ 60 ≤ q ∧ q < 80) ∧
      (e.priority_level = "Low" ↔ q < 60)) := by
  have hok : score_opportunities c1Scorer c1Jobs = .ok c1Res := by
    have hgroup : groupByCompany c1Jobs = [("Acme", [c1Job])] := by
      simp [groupByCompany, c1Jobs, groupStep, addJob, c1Job, Job.getCompany]
    have hfeat : extractOpportunityFeatures [c1Job] =
        [1, 0, 0, 0, 0, 1, 0, 0, 0, 0, 0, 1/10] := by
      norm_num [extractOpportunityFeatures, c1Job, Job.getUrgent, Job.getTech,
        Job.getPain, Job.getDepartment, Job.getSalaryRanges, Job.getEquityMentions,
        Job.getDescription, listMean, containsSub]
      decide
    have hentry : scoreEntry c1Scorer "Acme" [c1Job] = c1Entry := by
      rw [scoreEntry, hfeat]
      norm_num [c1Scorer, c1Entry, StdScaler.transform, dotProd, round2, roundHalfEven,
        OppEntry.mk.injEq]
    rw [score_opportunities, if_neg (by simp [c1Scorer]), hgroup]
    rw [List.map_cons, List.map_nil, hentry]
    simp [List.insertionSort, c1Res]
  exact ⟨hok, c1_score_bounds_and_priority c1Scorer c1Jobs c1Res hok⟩

/-! ## C2 — cluster coverage, C7 — effective cluster count -/

theorem effectiveK_le (n_clusters count : ℕ) (h : 2 ≤ count) :
    effectiveK n_clusters count ≤ count := by
  unfold effectiveK
  split
  · omega
  · omega

/-- **C2 (amended).** For every batch with at least two distinct companies
other than the `'Unknown'` placeholder (with fewer, `fit_predict` raises
inside k-means) and a positive requested cluster count, the mapping returned
by `CompanyClusterer.fit_predict` assigns exactly one cluster id to every
company of the batch except the `'Unknown'` placeholder, and the set of
cluster ids used is exactly `{0, …, k_eff - 1}`.  The k-means contract
assumed of scikit-learn: one label per sample, labels below `k`, and — when
there are at least as many samples as clusters — every cluster nonempty. -/
theorem c2_cluster_coverage
    (km : ℕ → List (List ℚ) → List ℕ) (pl : List (List ℚ) → List (List ℚ))
    (n_clusters : ℕ) (jobs : List Job) (m : List (String × ℕ))
    (hkmLen : ∀ k pts, (km k pts).length = pts.length)
    (hkmLt : ∀ k pts l, 1 ≤ k → l ∈ km k pts → l < k)
    (hkmAll : ∀ k pts, 1 ≤ k → k ≤ pts.length → ∀ i, i < k → i ∈ km k pts)
    (hplLen : ∀ pts, (pl pts).length = pts.length)
    (hn : 1 ≤ n_clusters)
    (hcount : 2 ≤ (extractCompanyFeatures jobs).1.length)
    (hok : fit_predict km pl n_clusters jobs = .ok m) :
    (∀ c, c ∈ m.map Prod.fst ↔ c ≠ "Unknown" ∧ ∃ j ∈ jobs, Job.getCompany j = c) ∧
    (m.map Prod.fst).Nodup ∧
    (∀ l, l ∈ m.map Prod.snd ↔
      l < effectiveK n_clusters (extractCompanyFeatures jobs).1.length) := by
  have hk1 : 1 ≤ effectiveK n_clusters (extractCompanyFeatures jobs).1.length := by
    unfold effectiveK
    split
    · omega
    · omega
  have hkle : effectiveK n_clusters (extractCompanyFeatures jobs).1.length ≤
      (extractCompanyFeatures jobs).1.length :=
    effectiveK_le _ _ hcount
  have hlen2 : (extractCompanyFeatures jobs).2.length =
      (extractCompanyFeatures jobs).1.length := by
    simp [extractCompanyFeatures]
  simp only [fit_predict] at hok
  rw [if_neg (not_lt.mpr hkle)] at hok
  have hm := Except.ok.inj hok
  subst hm
  set k := effectiveK n_clusters (extractCompanyFeatures jobs).1.length with hkdef
  set labels := km k (pl (extractCompanyFeatures jobs).2) with hlabels
  have hlablen : labels.length = (extractCompanyFeatures jobs).1.length := by
    rw [hlabels, hkmLen, hplLen, hlen2]
  have hfst : ((extractCompanyFeatures jobs).1.zip labels).map Prod.fst =
      (extractCompanyFeatures jobs).1 :=
    List.map_fst_zip _ _ (le_of_eq hlablen.symm)
  have hsnd : ((extractCompanyFeatures jobs).1.zip labels).map Prod.snd = labels :=
    List.map_snd_zip _ _ (le_of_eq hlablen)
  have hcomp : (extractCompanyFeatures jobs).1 = (groupByCompany jobs).map Prod.fst := by
    simp [extractCompanyFeatures]
  refine ⟨?_, ?_, ?_⟩
  · intro c
    rw [hfst, hcomp, mem_keys_groupByCompany]
  · rw [hfst, hcomp]
    exact nodup_keys_groupByCompany jobs
  · intro l
    rw [hsnd]
    constructor
    · intro hl
      exact hkmLt k _ l hk1 hl
    · intro hl
      exact hkmAll k _ hk1 (by rw [hplLen, hlen2]; exact hkle) l hl

/-- **C2 (counterexample).** The company `'Unknown'` appears in a posting of
the batch, `fit_predict` succeeds, yet `'Unknown'` is assigned no cluster in
the returned mapping: the claim fails as stated for postings carrying the
`'Unknown'` company value. -/
theorem c2_counterexample :
    c2JobU ∈ c2Jobs ∧ Job.getCompany c2JobU = "Unknown" ∧
    fit_predict modKMeans id 5 c2Jobs = .ok [("A", 0), ("B", 1)] ∧
    "Unknown" ∉ ([(("A" : String), (0 : ℕ)), ("B", 1)].map Prod.fst) := by
  refine ⟨by decide, by decide, by decide, by decide⟩

theorem c2_cluster_coverage_witness :
    (1 ≤ 5 ∧ 2 ≤ (extractCompanyFeatures [c2JobA, c2JobB]).1.length ∧
      fit_predict modKMeans id 5 [c2JobA, c2JobB] = .ok [("A", 0), ("B", 1)]) ∧
    ((∀ c, c ∈ ([(("A" : String), (0 : ℕ)), ("B", 1)].map Prod.fst) ↔
        c ≠ "Unknown" ∧ ∃ j ∈ [c2JobA, c2JobB], Job.getCompany j = c) ∧
      (([(("A" : String), (0 : ℕ)), ("B", 1)].map Prod.fst)).Nodup ∧
      (∀ l, l ∈ ([(("A" : String), (0 : ℕ)), ("B", 1)].map Prod.snd) ↔
        l < effectiveK 5 (extractCompanyFeatures [c2JobA, c2JobB]).1.length)) := by
  refine ⟨⟨by norm_num, by decide, by decide⟩, ?_⟩
  refine c2_cluster_coverage modKMeans id 5 [c2JobA, c2JobB] [("A", 0), ("B", 1)]
    ?_ ?_ ?_ ?_ (by norm_num) (by decide) (by decide)
  · intro k pts
    simp [modKMeans]
  · intro k pts l hk hl
    simp only [modKMeans, List.mem_map] at hl
    obtain ⟨i, -, rfl⟩ := hl
    exact Nat.mod_lt i hk
  · intro k pts hk hkle i hi
    simp only [modKMeans, List.mem_map]
    exact ⟨i, List.mem_range.mpr (lt_of_lt_of_le hi hkle), Nat.mod_eq_of_lt hi⟩
  · intro pts
    simp

/-- **C7 (amended).** When fewer distinct companies than requested clusters
are present, `fit_predict` reduces the cluster count to
`max 2 company_count`; provided at least two distinct companies exist, the
effective cluster count never exceeds the number of company points (with
fewer than two, it is forced to 2 and exceeds them). -/
theorem c7_effective_cluster_reduction (n_clusters : ℕ) (jobs : List Job)
    (h2 : 2 ≤ (extractCompanyFeatures jobs).1.length) :
    ((extractCompanyFeatures jobs).1.length < n_clusters →
      effectiveK n_clusters (extractCompanyFeatures jobs).1.length =
        max 2 (extractCompanyFeatures jobs).1.length) ∧
    effectiveK n_clusters (extractCompanyFeatures jobs).1.length ≤
      (extractCompanyFeatures jobs).1.length := by
  constructor
  · intro h
    unfold effectiveK
    rw [if_pos h]
  · exact effectiveK_le _ _ h2

/-- **C7 (counterexample).** With a single distinct company and the default
`n_clusters = 5`, the effective cluster count is `max 2 1 = 2`, which exceeds
the one available company point — the clustering step then rejects the
request. -/
theorem c7_counterexample :
    (extractCompanyFeatures c7Jobs).1.length = 1 ∧
    effectiveK 5 (extractCompanyFeatures c7Jobs).1.length = 2 ∧
    ¬ (effectiveK 5 (extractCompanyFeatures c7Jobs).1.length ≤
        (extractCompanyFeatures c7Jobs).1.length) ∧
    fit_predict modKMeans id 5 c7Jobs = .error "n_samples should be at least n_clusters" := by
  refine ⟨by decide, by decide, by decide, by decide⟩

theorem c7_effective_cluster_reduction_witness :
    2 ≤ (extractCompanyFeatures [c2JobA, c2JobB]).1.length ∧
    (((extractCompanyFeatures [c2JobA, c2JobB]).1.length < 5 →
        effectiveK 5 (extractCompanyFeatures [c2JobA, c2JobB]).1.length =
          max 2 (extractCompanyFeatures [c2JobA, c2JobB]).1.length) ∧
      effectiveK 5 (extractCompanyFeatures [c2JobA, c2JobB]).1.length ≤
        (extractCompanyFeatures [c2JobA, c2JobB]).1.length) :=
  ⟨by decide, c7_effective_cluster_reduction 5 [c2JobA, c2JobB] (by decide)⟩

/-! ## C3 — untrained fallback equals the rule-based extractor -/

/-- **C3.** With an untrained classifier, `process_urgency_ml` takes the
rule-based fallback for every description: the predicted class is 1 iff the
rule-based urgent-language extractor returns a nonempty list, and that is the
same nonempty-to-1 mapping `_create_training_labels` applies to the stored
rule-based signals to derive training labels. -/
theorem c3_untrained_fallback_matches_rule_based
    (findall : String → String → List String) (s : MLSignalProcessor)
    (descriptions : List String)
    (huntrained : s.urgency_classifier.is_trained = false) :
    process_urgency_ml findall s descriptions =
      descriptions.map (fallbackUrgencyResult findall) ∧
    (process_urgency_ml findall s descriptions).map (fun r => r.ml_urgency_class) =
      descriptions.map (fun d =>
        if extract_urgent_hiring_language findall d = [] then 0 else 1) ∧
    (∀ d : String,
      (create_training_labels
        [{ description := some d,
           urgent_hiring_language := some (extract_urgent_hiring_language findall d) }]).2 =
      [(fallbackUrgencyResult findall d).ml_urgency_class]) := by
  have hperr : s.urgency_classifier.predict_proba descriptions =
      .error "Model must be trained before prediction" := by
    rw [UrgencyClassifier.predict_proba, if_pos (by simp [huntrained])]
  have hfall : process_urgency_ml findall s descriptions =
      descriptions.map (fallbackUrgencyResult findall) := by
    rw [process_urgency_ml]
    by_cases hu : s.use_ml && s.ml_models_available
    · rw [if_pos hu, hperr]
    · rw [if_neg hu]
  refine ⟨hfall, ?_, ?_⟩
  · rw [hfall, List.map_map]
    refine List.map_congr_left fun d _ => ?_
    by_cases hsig : extract_urgent_hiring_language findall d = []
    · simp [fallbackUrgencyResult, hsig]
    · simp [fallbackUrgencyResult, hsig]
  · intro d
    rw [create_training_labels]
    by_cases hsig : extract_urgent_hiring_language findall d = []
    · simp [fallbackUrgencyResult, hsig, Job.getUrgent]
    · have hlen : 0 < (extract_urgent_hiring_language findall d).length :=
        List.length_pos.mpr hsig
      simp [fallbackUrgencyResult, hsig, Job.getUrgent, hlen]

theorem c3_untrained_fallback_matches_rule_based_witness :
    c3Proc.urgency_classifier.is_trained = false ∧
    (process_urgency_ml c3Findall c3Proc c3Descs =
      c3Descs.map (fallbackUrgencyResult c3Findall) ∧
    (process_urgency_ml c3Findall c3Proc c3Descs).map (fun r => r.ml_urgency_class) =
      c3Descs.map (fun d =>
        if extract_urgent_hiring_language c3Findall d = [] then 0 else 1) ∧
    (∀ d : String,
      (create_training_labels
        [{ description := some d,
           urgent_hiring_language := some (extract_urgent_hiring_language c3Findall d) }]).2 =
      [(fallbackUrgencyResult c3Findall d).ml_urgency_class])) :=
  ⟨rfl, c3_untrained_fallback_matches_rule_based c3Findall c3Proc c3Descs rfl⟩

/-! ## C4 — insufficient-data behaviour of the orchestrators -/

/-- **C4 (amended).** On fewer than 10 postings, `HiringTrendPredictor.fit`
returns the explicit insufficient-data result (a value, not an exception);
the `MLJobIntelligenceSystem.train_all_models` orchestrator, however, aborts
with a `ValueError` on the same input, while agent 3's `MLInsightGenerator`
orchestrator completes: its report is marked `rule_based` and carries the full
rule-based opportunity ranking, covering every company of the batch other
than the `'Unknown'` placeholder. -/
theorem c4_insufficient_data_paths
    (dayCount : List Job → ℕ) (body : List Job → Except String Unit)
    (trainBody : MLInsightGenerator → List Job → MLInsightGenerator × Except String Unit)
    (s : MLInsightGenerator) (jobs : List Job)
    (hlen : jobs.length < 10) (havail : s.ml_models_available = false) :
    trendFit dayCount jobs =
      .insufficient "Insufficient data for training (minimum 10 jobs required)" ∧
    train_all_models body jobs =
      .error "Insufficient data for ML training. Need at least 10 jobs." ∧
    (generate_comprehensive_insights trainBody s jobs).analysis_method = "rule_based" ∧
    (generate_comprehensive_insights trainBody s jobs).opportunity_rankings =
      .ruleBased (rule_based_opportunities jobs) ∧
    (∀ c, c ∈ (rule_based_opportunities jobs).map RuleOpp.company ↔
      c ≠ "Unknown" ∧ ∃ j ∈ jobs, Job.getCompany j = c) ∧
    (∀ o ∈ rule_based_opportunities jobs, o.scoring_method = "rule_based") := by
  have hskip : gen_train_ml_models trainBody s jobs = s := by
    rw [gen_train_ml_models, if_pos]
    simp [hlen]
  have hs1 : (if s.use_ml && ¬ s.ml_models_available
      then gen_train_ml_models trainBody s jobs else s) = s := by
    split
    · exact hskip
    · rfl
  have hscores : generate_ml_opportunity_scores s jobs =
      .ruleBased (rule_based_opportunities jobs) := by
    rw [generate_ml_opportunity_scores, if_pos (by simp [havail])]
  have hrblen : (rule_based_opportunities jobs).length ≤ 15 := by
    rw [rule_based_opportunities, List.length_insertionSort, List.length_map]
    have h₁ := length_groupByCompany_le jobs
    omega
  have hins : generate_comprehensive_insights trainBody s jobs =
      { analysis_method := "rule_based",
        opportunity_rankings := .ruleBased (rule_based_opportunities jobs) } := by
    rw [generate_comprehensive_insights]
    rw [hs1, hscores]
    simp only [OppScores.take15]
    rw [List.take_of_length_le hrblen]
    simp [havail]
  have hpre : ∀ c, c ∈ (rule_based_opportunities jobs).map RuleOpp.company ↔
      c ∈ (groupByCompany jobs).map Prod.fst := by
    intro c
    rw [rule_based_opportunities]
    rw [((List.perm_insertionSort _ _).map RuleOpp.company).mem_iff]
    rw [List.map_map]
    constructor
    · intro hc
      obtain ⟨g, hg, rfl⟩ := List.mem_map.mp hc
      exact List.mem_map.mpr ⟨g, hg, rfl⟩
    · intro hc
      obtain ⟨g, hg, rfl⟩ := List.mem_map.mp hc
      exact List.mem_map.mpr ⟨g, hg, rfl⟩
  refine ⟨by rw [trendFit, if_pos hlen], by rw [train_all_models, if_pos hlen],
    by rw [hins], by rw [hins], ?_, ?_⟩
  · intro c
    rw [hpre, mem_keys_groupByCompany]
  · intro o ho
    rw [rule_based_opportunities, (List.perm_insertionSort _ _).mem_iff] at ho
    obtain ⟨g, hg, rfl⟩ := List.mem_map.mp ho
    rfl

/-- **C4 (counterexample).** On a one-posting batch, `fit` itself returns the
explicit insufficient-data value, but the (cited) pipeline orchestrator
`MLJobIntelligenceSystem.train_all_models` raises `ValueError` instead of
completing with a rule-based ranking. -/
theorem c4_counterexample :
    c4SmallJobs.length < 10 ∧
    trendFit (fun _ => 0) c4SmallJobs =
      .insufficient "Insufficient data for training (minimum 10 jobs required)" ∧
    train_all_models (fun _ => .ok ()) c4SmallJobs =
      .error "Insufficient data for ML training. Need at least 10 jobs." := by
  refine ⟨by decide, by decide, by decide⟩

theorem c4_insufficient_data_paths_witness :
    (c4Jobs.length < 10 ∧ c4Gen.ml_models_available = false) ∧
    (trendFit (fun _ => 0) c4Jobs =
      .insufficient "Insufficient data for training (minimum 10 jobs required)" ∧
    train_all_models (fun _ => .ok ()) c4Jobs =
      .error "Insufficient data for ML training. Need at least 10 jobs." ∧
    (generate_comprehensive_insights c4TrainBody c4Gen c4Jobs).analysis_method = "rule_based" ∧
    (generate_comprehensive_insights c4TrainBody c4Gen c4Jobs).opportunity_rankings =
      .ruleBased (rule_based_opportunities c4Jobs) ∧
    (∀ c, c ∈ (rule_based_opportunities c4Jobs).map RuleOpp.company ↔
      c ≠ "Unknown" ∧ ∃ j ∈ c4Jobs, Job.getCompany j = c) ∧
    (∀ o ∈ rule_based_opportunities c4Jobs, o.scoring_method = "rule_based")) :=
  ⟨⟨by decide, rfl⟩,
    c4_insufficient_data_paths (fun _ => 0) (fun _ => .ok ()) c4TrainBody c4Gen c4Jobs
      (by decide) rfl⟩

/-! ## C5 — empty batch after a fit, C6 — unseen categorical values -/

/-- **C5 (amended).** On a fitted extractor and an empty posting batch, the
text-feature step does return a zero-row matrix, but `extract_all_features`
then raises: the empty batch yields a DataFrame with no columns, so the
categorical step calls `np.hstack` on zero arrays, which raises instead of
returning zero-row matrices. -/
theorem c5_empty_batch_raises (fitT : List String → String → List ℚ)
    (fitS : List (List ℚ) → List ℚ → List ℚ) (s : FeatureExtractor)
    (_hfit : s.is_fitted = true) :
    extract_text_features fitT s [] = [] ∧
    (extract_all_features fitT fitS s []).2 =
      .error "need at least one array to concatenate" := by
  have hcat : extract_categorical_features s [] =
      (s, .error "need at least one array to concatenate") := by
    rw [extract_categorical_features]
    simp [categoricalCols, encodeColumns]
  constructor
  · simp [extract_text_features]
  · rw [extract_all_features, hcat]

/-- **C5 (counterexample).** A concrete fitted extractor (obtained by one
successful `extract_all_features` call) raises on the empty batch instead of
returning zero-row matrices. -/
theorem c5_counterexample :
    ((extract_all_features trivFitT trivFitS freshFE [c5Job]).2).isOk = true ∧
    c5Fitted.is_fitted = true ∧
    (extract_all_features trivFitT trivFitS c5Fitted []).2 =
      .error "need at least one array to concatenate" := by
  refine ⟨by decide, by decide, by decide⟩

theorem c5_empty_batch_raises_witness :
    c5Fitted.is_fitted = true ∧
    (extract_text_features trivFitT c5Fitted [] = [] ∧
      (extract_all_features trivFitT trivFitS c5Fitted []).2 =
        .error "need at least one array to concatenate") :=
  ⟨by decide, c5_empty_batch_raises trivFitT trivFitS c5Fitted (by decide)⟩

/-- **C6.** Evaluation of the unseen-category path at a concrete input: after
fitting on a posting of company `acme` (so `classes_ = ['acme']` and the
`'Unknown'` sentinel is *not* a known class), transforming the seen posting
encodes fine, but a posting of the unseen company `zeta` is first replaced by
`'Unknown'` and then `LabelEncoder.transform` raises — contradicting the
claim (and the code's own `Handle unseen categories` intent) that unseen
values are encoded as a sentinel code without error. -/
theorem c6_unseen_value_raises :
    (extract_categorical_features c5Fitted [c5Job]).2 = .ok [[0, 0, 0, 0]] ∧
    Job.getCompany c6Job = "zeta" ∧
    c5Fitted.label_encoders.lookup "company" = some ["acme"] ∧
    (extract_categorical_features c5Fitted [c6Job]).2 =
      .error "y contains previously unseen labels" := by
  refine ⟨by decide, by decide, by decide, by decide⟩

/-! ## C8 — determinism of the numeric pipeline -/

/-- **C8.** Two runs of clustering, opportunity scoring and trend prediction
on equal inputs produce identical outputs.  All randomness in the source is
fixed by the seed (`random_state=42` for k-means and the ensemble models), so
the fitted-model functions and the k-means assignment are deterministic
inputs, and the wall clock of `predict_trends` is an explicit input: with
those fixed, the embedding is a pure function of the posting set. -/
theorem c8_determinism
    (km : ℕ → List (List ℚ) → List ℕ) (pl : List (List ℚ) → List (List ℚ))
    (n_clusters : ℕ) (scorer : OpportunityScorer) (dateOf : ℕ → DateFeat)
    (fmt : DateFeat → String) (tp : TrendPredictor) (days_ahead : ℕ)
    (jobs jobs' : List Job) (hjobs : jobs = jobs') :
    pipelineRun km pl n_clusters scorer dateOf fmt tp days_ahead jobs =
      pipelineRun km pl n_clusters scorer dateOf fmt tp days_ahead jobs' := by
  rw [hjobs]

theorem c8_determinism_witness :
    c4Jobs = c4Jobs ∧
    pipelineRun modKMeans id 5 c4Scorer c9DateOf c9Fmt c9Predictor 7 c4Jobs =
      pipelineRun modKMeans id 5 c4Scorer c9DateOf c9Fmt c9Predictor 7 c4Jobs :=
  ⟨rfl, c8_determinism modKMeans id 5 c4Scorer c9DateOf c9Fmt c9Predictor 7
    c4Jobs c4Jobs rfl⟩

/-! ## C9 — non-negativity of trend forecasts -/

/-- **C9.** Every value of the volume, urgency and tech-adoption series
returned by a successful `predict_trends` call is nonnegative, for arbitrary
fitted regressors (hence for arbitrary training input, all-urgent included):
each prediction is clamped with `max(0, pred)`. -/
theorem c9_trend_nonneg (dateOf : ℕ → DateFeat) (fmt : DateFeat → String)
    (p : TrendPredictor) (days_ahead : ℕ) (preds : TrendPredictions)
    (hok : predict_trends dateOf fmt p days_ahead = .ok preds) :
    (∀ x ∈ preds.volume, 0 ≤ x) ∧ (∀ x ∈ preds.urgency, 0 ≤ x) ∧
    (∀ x ∈ preds.tech_adoption, 0 ≤ x) := by
  rw [predict_trends] at hok
  by_cases hf : p.is_fitted
  · rw [if_neg (not_not_intro hf)] at hok
    have h := Except.ok.inj hok
    subst h
    refine ⟨?_, ?_, ?_⟩ <;>
    · intro x hx
      simp only [List.mem_map] at hx
      obtain ⟨d, -, rfl⟩ := hx
      exact le_max_left 0 _
  · rw [if_pos hf] at hok
    exact Except.noConfusion hok

theorem c9_trend_nonneg_witness :
    predict_trends c9DateOf c9Fmt c9Predictor 1 = .ok c9Preds ∧
    ((∀ x ∈ c9Preds.volume, 0 ≤ x) ∧ (∀ x ∈ c9Preds.urgency, 0 ≤ x) ∧
      (∀ x ∈ c9Preds.tech_adoption, 0 ≤ x)) := by
  have hok : predict_trends c9DateOf c9Fmt c9Predictor 1 = .ok c9Preds := by
    rw [predict_trends, if_neg (by simp [c9Predictor])]
    have hrange : List.range 1 = [0] := rfl
    simp [c9DateOf, c9Fmt, c9Predictor, c9Preds, hrange]
  exact ⟨hok, c9_trend_nonneg c9DateOf c9Fmt c9Predictor 1 c9Preds hok⟩

/-! ## C10 — degenerate labels in the technology classifier -/

/-- **C10.** If every technology category has degenerate (all-identical)
derived labels, `TechStackClassifier.train` on a fresh classifier fits no
per-category model yet still sets `is_trained`; a subsequent
`predict_tech_categories` call then returns an empty category-probability
mapping for every description instead of raising or reporting the untrained
state. -/
theorem c10_degenerate_labels_trained_empty
    (fitModel : String → List Job → (String → ℚ)) (s : TechStackClassifier)
    (jobs : List Job) (descriptions : List String)
    (hmods : s.models = [])
    (hdeg : ∀ cat ∈ tech_categories, (techLabels cat jobs).dedup.length < 2) :
    (techTrain fitModel s jobs).is_trained = true ∧
    (techTrain fitModel s jobs).models = [] ∧
    predict_tech_categories (techTrain fitModel s jobs) descriptions =
      .ok (descriptions.map (fun _ => [])) := by
  have hfold : ∀ cats : List String,
      (∀ cat ∈ cats, (techLabels cat jobs).dedup.length < 2) →
      ∀ ms, cats.foldl (techTrainStep fitModel jobs) ms = ms := by
    intro cats
    induction cats with
    | nil => intro _ ms; rfl
    | cons c rest ih =>
        intro h ms
        rw [List.foldl_cons]
        have hstep : techTrainStep fitModel jobs ms c = ms := by
          simp only [techTrainStep]
          rw [if_pos (h c (List.mem_cons_self c rest))]
        rw [hstep]
        exact ih (fun cat hcat => h cat (List.mem_cons_of_mem _ hcat)) ms
  have hmodels : (techTrain fitModel s jobs).models = [] := by
    rw [techTrain]
    rw [hfold tech_categories hdeg s.models]
    exact hmods
  refine ⟨rfl, hmodels, ?_⟩
  rw [predict_tech_categories, if_neg (by simp [techTrain])]
  rw [hmodels]
  simp

theorem c10_degenerate_labels_trained_empty_witness :
    (c10Fresh.models = [] ∧
      (∀ cat ∈ tech_categories, (techLabels cat c10Jobs).dedup.length < 2)) ∧
    ((techTrain c10FitModel c10Fresh c10Jobs).is_trained = true ∧
      (techTrain c10FitModel c10Fresh c10Jobs).models = [] ∧
      predict_tech_categories (techTrain c10FitModel c10Fresh c10Jobs) ["x"] =
        .ok (["x"].map (fun _ => []))) :=
  ⟨⟨rfl, by decide⟩,
    c10_degenerate_labels_trained_empty c10FitModel c10Fresh c10Jobs ["x"] rfl (by decide)⟩
